import Mathlib

/-
Verification of the `eventful-wss` server library (src/ewss.js).

The JavaScript source is shallowly embedded below.  Pure functions become
Lean functions; the methods of the `EventfulWebSocketServer` class become
functions on an `EventfulWebSocketServer` structure whose fields are exactly
the fields set by the constructor; side effects (sending on a socket,
invoking a user handler) are reified as lists of actions / invocations
returned by the embedded functions, in the order the code performs them.
The JavaScript builtins `JSON.stringify` and `JSON.parse` are external to
the repository: `JSON.stringify` is modelled concretely on the JSON value
type below, while `JSON.parse` is kept as an explicit function argument,
so every theorem about `parseEWSMessage` holds for an arbitrary behaviour
of the builtin.  User-supplied handlers are identified by natural numbers,
since the claims are about which handlers are invoked, how often, in what
order and with what arguments, never about what the handlers themselves do.
-/

set_option autoImplicit false

namespace EWSS

/-- JSON values, the data carried in eventful messages.  Numbers are
restricted to integers: no claim depends on numeric behaviour and
JavaScript floating point is out of scope. -/
inductive JValue where
  | null : JValue
  | bool (b : Bool) : JValue
  | num (n : Int) : JValue
  | str (s : String) : JValue
  | arr (elems : List JValue) : JValue
  | obj (fields : List (String × JValue)) : JValue
  deriving Repr

/-- Hexadecimal digit for the low 4 bits of a code point, as used in the
\u00XX escapes produced by JSON.stringify for control characters. -/
def hexDigit (n : Nat) : Char :=
  if n < 10 then Char.ofNat (48 + n) else Char.ofNat (87 + n)

/-- Escape one character the way JSON.stringify escapes characters inside
string values. -/
def escapeChar (c : Char) : String :=
  if c = '"' then "\\\""
  else if c = '\\' then "\\\\"
  else if c.toNat = 8 then "\\b"
  else if c.toNat = 9 then "\\t"
  else if c.toNat = 10 then "\\n"
  else if c.toNat = 12 then "\\f"
  else if c.toNat = 13 then "\\r"
  else if c.toNat < 32 then
    "\\u00" ++ String.mk [hexDigit (c.toNat / 16), hexDigit (c.toNat % 16)]
  else String.mk [c]

/-- Quote a string the way JSON.stringify serialises string values. -/
def quoteString (s : String) : String :=
  "\"" ++ String.join (s.toList.map escapeChar) ++ "\""

mutual

/-- Model of the JavaScript builtin JSON.stringify on the modelled value
space (external library code, not code of this repository). -/
def jsonStringify : JValue → String
  | .null => "null"
  | .bool true => "true"
  | .bool false => "false"
  | .num n => toString n
  | .str s => quoteString s
  | .arr elems => "[" ++ jsonStringifyElems elems ++ "]"
  | .obj fields => "\x7b" ++ jsonStringifyFields fields ++ "\x7d"

/-- Comma-separated serialisation of array elements. -/
def jsonStringifyElems : List JValue → String
  | [] => ""
  | [v] => jsonStringify v
  | v :: w :: rest => jsonStringify v ++ "," ++ jsonStringifyElems (w :: rest)

/-- Comma-separated serialisation of object fields. -/
def jsonStringifyFields : List (String × JValue) → String
  | [] => ""
  | [(k, v)] => quoteString k ++ ":" ++ jsonStringify v
  | (k, v) :: f :: rest =>
      quoteString k ++ ":" ++ jsonStringify v ++ "," ++ jsonStringifyFields (f :: rest)

end

/-- Source (ewss.js line 8): function buildEWSMessage(event, data)
returns JSON.stringify of the object literal with fields event and data. -/
def buildEWSMessage (event : String) (data : JValue) : String :=
  jsonStringify (JValue.obj [("event", JValue.str event), ("data", data)])

/-- The shape of the object literals returned inside parseEWSMessage:
exactly the two properties ok and body (body is null on the failure
object, modelled as none). -/
structure EWSParseResult where
  ok : Bool
  body : Option JValue
  deriving Repr

/-- JavaScript semantics of try-finally when the finally block executes an
unconditional return: the return inside finally supersedes the completion
of the try block, whether the try block returned normally or threw, so the
function returns the finally value and any exception is discarded. -/
def jsTryFinallyReturn {α : Type} (_tryOutcome : Except String α) (finallyReturn : α) : α :=
  finallyReturn

/-- Source (ewss.js lines 13-23): function parseEWSMessage(message).
The try block computes JSON.parse(message) and returns the ok:true object;
the finally block unconditionally returns the ok:false object, which under
JavaScript semantics (see jsTryFinallyReturn) supersedes the try block
on every input.  jsonParse stands for the builtin JSON.parse and is left
arbitrary. -/
def parseEWSMessage (jsonParse : String → Except String JValue) (message : String) :
    EWSParseResult :=
  jsTryFinallyReturn
    ((jsonParse message).map fun json => { ok := true, body := some json })
    { ok := false, body := none }

/-- Client websocket readyState values, named after the constants of the
ws library (WebSocket.CONNECTING, OPEN, CLOSING, CLOSED). -/
inductive ReadyState where
  | CONNECTING : ReadyState
  | OPEN : ReadyState
  | CLOSING : ReadyState
  | CLOSED : ReadyState
  deriving Repr, DecidableEq

/-- The raw net socket underlying a client websocket, by the two
properties the code reads from it (remoteAddress and remotePort of
websocket._socket, ewss.js lines 157-159). -/
structure NetSocket where
  remoteAddress : String
  remotePort : Nat
  deriving Repr, DecidableEq

/-- The remote object the connection callback attaches to the client
websocket (ewss.js lines 156-160). -/
structure RemoteInfo where
  address : String
  port : Nat
  fullAddress : String
  deriving Repr, DecidableEq

/-- An upgrade request, by the components the code reads from it: url.parse
of req.url yields a pathname and a parsed query object (a list of key-value
pairs). -/
structure UpgradeReq where
  pathname : String
  query : List (String × String)
  deriving Repr, DecidableEq

/-- A client websocket, by the properties the code reads and writes: an
identity, readyState (checked by emit), the underlying net socket (read by
the connection callback), and the remote / request properties the
connection callback attaches (none until it runs). -/
structure ClientWS where
  id : Nat
  readyState : ReadyState
  _socket : NetSocket
  remote : Option RemoteInfo := none
  request : Option UpgradeReq := none
  deriving Repr, DecidableEq

/-- An underlying accepting primitive (an instance of ws WebSocket.Server).
The id numbers the instances in order of construction, so distinct calls to
the constructor yield primitives with distinct ids; connectionListenerCount
counts the listeners registered for the connection event on this instance;
clients models the wss.clients set. -/
structure WSServer where
  id : Nat
  connectionListenerCount : Nat := 0
  clients : List ClientWS := []
  deriving Repr, DecidableEq

/-- User-supplied handler functions are identified by numbers: the claims
concern which handlers run, how often, in what order and with what
arguments, never what the handler bodies do. -/
abbrev Handler := Nat

/-- Parsed query objects, as the authenticator receives them. -/
abbrev Query := List (String × String)

/-- The EventfulWebSocketServer class, by the fields its constructor sets
(ewss.js lines 35-43).  Handler slots hold handler identities; the
authenticator is kept as a real function since the upgrade path would
call it with (req, query). -/
structure EventfulWebSocketServer where
  _socket : Option WSServer := none
  _events : List (String × List Handler) := []
  _authenticator : Option (UpgradeReq → Query → Bool) := none
  _onOpenHandler : Option Handler := none
  _onCloseHandler : Option Handler := none
  _onErrorHandler : Option Handler := none
  _onMessageHandler : Option Handler := none

/-- Observable wire action: payload sent on the client socket target. -/
structure SendAction where
  target : Nat
  payload : String
  deriving Repr, DecidableEq

/-- Assoc-list lookup modelling the JavaScript object property read
this._events[k] and the membership test (k in this._events), over
insertion-ordered string keys. -/
def lookupEvent : List (String × List Handler) → String → Option (List Handler)
  | [], _ => none
  | (k, hs) :: rest, e => if k = e then some hs else lookupEvent rest e

/-- Appends a handler to the list stored under the given key, modelling
this._events[event].push(handler) for a key that is present. -/
def pushHandlerTo : List (String × List Handler) → String → Handler → List (String × List Handler)
  | [], _, _ => []
  | (k, hs) :: rest, e, h =>
      if k = e then (k, hs ++ [h]) :: rest else (k, hs) :: pushHandlerTo rest e h

namespace EventfulWebSocketServer

/-- Source lines 35-43: the constructor; every field starts null / empty. -/
def new : EventfulWebSocketServer := {}

/-- Source lines 53-56: stores the authenticator in _authenticator and
returns this. -/
def useAuthenticator (self : EventfulWebSocketServer)
    (authenticator : UpgradeReq → Query → Bool) : EventfulWebSocketServer :=
  { self with _authenticator := some authenticator }

/-- Source lines 64-67: stores the handler in _onOpenHandler, returns this. -/
def onOpen (self : EventfulWebSocketServer) (handler : Handler) : EventfulWebSocketServer :=
  { self with _onOpenHandler := some handler }

/-- Source lines 75-78: stores the handler in _onCloseHandler, returns this. -/
def onClose (self : EventfulWebSocketServer) (handler : Handler) : EventfulWebSocketServer :=
  { self with _onCloseHandler := some handler }

/-- Source lines 86-89: stores the handler in _onErrorHandler, returns this. -/
def onError (self : EventfulWebSocketServer) (handler : Handler) : EventfulWebSocketServer :=
  { self with _onErrorHandler := some handler }

/-- Source lines 97-100: stores the handler in _onMessageHandler, returns this. -/
def onMessage (self : EventfulWebSocketServer) (handler : Handler) : EventfulWebSocketServer :=
  { self with _onMessageHandler := some handler }

/-- Source lines 109-114: emit sends the built message on the websocket iff
its readyState equals WebSocket.OPEN; otherwise the body does nothing and
the method returns normally.  The (possibly empty) list of performed sends
is returned; `this` is unused by the source body. -/
def emit (_self : EventfulWebSocketServer) (websocket : ClientWS) (event : String)
    (data : JValue) : List SendAction :=
  if websocket.readyState = ReadyState.OPEN then
    [{ target := websocket.id, payload := buildEWSMessage event data }]
  else []

/-- The forEach loop body of broadcast (source lines 126-129), iterated
over a client list: skip the client when a rule is given and rejects it,
otherwise this.emit to it. -/
def broadcastClients (self : EventfulWebSocketServer) (clients : List ClientWS)
    (event : String) (data : JValue) (rule : Option (ClientWS → Bool)) : List SendAction :=
  match clients with
  | [] => []
  | ws :: rest =>
      (match rule with
       | some r => if r ws then self.emit ws event data else []
       | none => self.emit ws event data)
      ++ broadcastClients self rest event data rule

/-- Source lines 125-130: broadcast reads this._socket.clients without a
null check, so on an uninitialised server the property read on null throws
a TypeError; otherwise it emits to every client the rule admits. -/
def broadcast (self : EventfulWebSocketServer) (event : String) (data : JValue)
    (rule : Option (ClientWS → Bool)) : Except String (List SendAction) :=
  match self._socket with
  | none => .error "TypeError: cannot read clients of null"
  | some wss => .ok (broadcastClients self wss.clients event data rule)

/-- Source lines 138-143: subscribe creates an empty list under the event
key when the key is absent (appended in insertion order, as for JavaScript
string keys), then pushes the handler onto that list and returns this. -/
def subscribe (self : EventfulWebSocketServer) (event : String) (handler : Handler) :
    EventfulWebSocketServer :=
  let evs := match lookupEvent self._events event with
    | none => self._events ++ [(event, [])]
    | some _ => self._events
  { self with _events := pushHandlerTo evs event handler }

/-- Source lines 151-184: init assigns a freshly constructed
WebSocket.Server (noServer, hence no clients yet) to this._socket and
registers exactly one connection listener on that fresh instance.  The
ambient counter numbers the WebSocket.Server instances constructed so far
and supplies the fresh id; the behaviour of the registered connection
listener is modelled by connectionCallback and handleMessage below. -/
def init (self : EventfulWebSocketServer) (created : Nat) : EventfulWebSocketServer × Nat :=
  ({ self with _socket := some { id := created, connectionListenerCount := 1, clients := [] } },
   created + 1)

/-- Source lines 190-192: this._socket !== null. -/
def isInitialized (self : EventfulWebSocketServer) : Bool :=
  self._socket.isSome

/-- Source lines 198-200: returns this._socket. -/
def getWSS (self : EventfulWebSocketServer) : Option WSServer :=
  self._socket

end EventfulWebSocketServer

/-- An argument value of the JavaScript call to the onOpen user handler. -/
inductive OpenArg where
  | connection (ws : ClientWS) : OpenArg
  | request (r : UpgradeReq) : OpenArg
  deriving Repr, DecidableEq

/-- One invocation of the onOpen user handler: which handler ran and the
exact argument list of the JavaScript call. -/
structure OpenCall where
  handler : Handler
  args : List OpenArg
  deriving Repr, DecidableEq

/-- One user-handler invocation performed by the per-connection message
listener: either the generic onMessage hook (receiving the websocket, the
raw message and isBinary) or a named-event subscriber (receiving the
websocket, the data argument and isBinary). -/
inductive Invocation where
  | messageHook (h : Handler) (ws : Nat) (message : String) (isBinary : Bool) : Invocation
  | subscriber (h : Handler) (ws : Nat) (data : Option JValue) (isBinary : Bool) : Invocation
  deriving Repr

namespace EventfulWebSocketServer

/-- Source lines 154-181, the connection listener that init registers.  It
attaches the remote metadata object and the request to the client
websocket, then invokes the onOpen handler, when one is set, with the
websocket as the only argument of the call this._onOpenHandler(websocket);
it also registers the per-connection close / error / message listeners (the
message listener behaviour is modelled by handleMessage below; the close
and error listeners only forward to the respective optional handlers and no
claim concerns them).  Returns the updated websocket and the onOpen
invocations performed, in order. -/
def connectionCallback (self : EventfulWebSocketServer) (websocket : ClientWS)
    (request : UpgradeReq) : ClientWS × List OpenCall :=
  let ws : ClientWS := { websocket with
    remote := some {
      address := websocket._socket.remoteAddress,
      port := websocket._socket.remotePort,
      fullAddress := websocket._socket.remoteAddress ++ ":"
        ++ toString websocket._socket.remotePort },
    request := some request }
  let calls := match self._onOpenHandler with
    | some h => [{ handler := h, args := [OpenArg.connection ws] }]
    | none => []
  (ws, calls)

/-- Source lines 172-180, the per-connection message listener: it first
invokes the generic onMessage hook when one is set, then parses the raw
message with parseEWSMessage and, when the result reports ok, runs the
subscribers found under the event key.  The accesses json.event and
json.data on the parse result, which has exactly the properties ok and
body, yield undefined, so the subscriber lookup key is the string
"undefined" (undefined converted to a property key) and the data argument
passed to a subscriber would be undefined (none).  Returns the handler
invocations performed, in order. -/
def handleMessage (jsonParse : String → Except String JValue)
    (self : EventfulWebSocketServer) (wsId : Nat) (message : String) (isBinary : Bool) :
    List Invocation :=
  let hookCalls := match self._onMessageHandler with
    | some h => [Invocation.messageHook h wsId message isBinary]
    | none => []
  let json := parseEWSMessage jsonParse message
  let subCalls :=
    if json.ok then
      ((lookupEvent self._events "undefined").getD []).map
        fun h => Invocation.subscriber h wsId none isBinary
    else []
  hookCalls ++ subCalls

/-- The property access ewss.authenticator in addEventfulWebSocketHandlers
(source line 220).  An EventfulWebSocketServer instance carries exactly the
properties set in the constructor (_socket, _events, _authenticator and the
four handler slots) plus the class methods, and the class declares no
property, getter or method named authenticator, so this access evaluates to
undefined regardless of what useAuthenticator stored in _authenticator. -/
def authenticatorProp (_self : EventfulWebSocketServer) :
    Option (UpgradeReq → Query → Bool) :=
  none

end EventfulWebSocketServer

/-- Outcome of one upgrade event on the http server. -/
inductive UpgradeOutcome where
  | destroyed : UpgradeOutcome
  | handshake (serverId : Nat) : UpgradeOutcome
  | jsError : UpgradeOutcome
  deriving Repr, DecidableEq

/-- Result of one upgrade event: its outcome, the router object afterwards
(the matched entry may have been initialised in place) and the updated
count of WebSocket.Server instances constructed so far. -/
structure UpgradeResult where
  outcome : UpgradeOutcome
  router : List (String × EventfulWebSocketServer)
  created : Nat

/-- JavaScript (pathname in ewssRouter) / ewssRouter[pathname]: assoc-list
lookup over the router object, insertion ordered. -/
def lookupRoute : List (String × EventfulWebSocketServer) → String →
    Option EventfulWebSocketServer
  | [], _ => none
  | (p, e) :: rest, path => if p = path then some e else lookupRoute rest path

/-- Write back the (mutated) server under its path.  Distinct paths are
taken to map to distinct instances, as in the documented usage; registering
one instance under two paths is not modelled. -/
def updateRoute : List (String × EventfulWebSocketServer) → String →
    EventfulWebSocketServer → List (String × EventfulWebSocketServer)
  | [], _, _ => []
  | (p, e) :: rest, path, e2 =>
      if p = path then (p, e2) :: rest else (p, e) :: updateRoute rest path e2

/-- Source lines 213-231: the upgrade listener installed by
addEventfulWebSocketHandlers.  It parses the request url and looks the
pathname up in the router object; on a miss control falls through to
socket.destroy().  On a hit it computes authenticated from the property
access ewss.authenticator (see authenticatorProp; the access yields
undefined, so the conditional takes its : true branch and the stored
_authenticator is never called), initialises the matched server when it is
not yet initialised, and, when authenticated, completes the handshake via
wss.handleUpgrade on the underlying primitive, emitting the connection
event there; when not authenticated, control reaches socket.destroy().
The jsError outcome is the TypeError of calling handleUpgrade on null,
reachable only if the matched server could be initialised yet hold no
socket. -/
def upgradeHandler (router : List (String × EventfulWebSocketServer)) (req : UpgradeReq)
    (created : Nat) : UpgradeResult :=
  match lookupRoute router req.pathname with
  | some ewss =>
      let authenticated := match ewss.authenticatorProp with
        | some auth => auth req req.query
        | none => true
      let initPair := if ewss.isInitialized then (ewss, created) else ewss.init created
      let router2 := updateRoute router req.pathname initPair.1
      if authenticated then
        match initPair.1.getWSS with
        | some wss => { outcome := .handshake wss.id, router := router2, created := initPair.2 }
        | none => { outcome := .jsError, router := router2, created := initPair.2 }
      else
        { outcome := .destroyed, router := router2, created := initPair.2 }
  | none => { outcome := .destroyed, router := router, created := created }

/-- Recogniser for named-event subscriber invocations. -/
def Invocation.isSubscriber : Invocation → Bool
  | .subscriber _ _ _ _ => true
  | .messageHook _ _ _ _ => false

/-- Recogniser for generic onMessage hook invocations. -/
def Invocation.isMessageHook : Invocation → Bool
  | .messageHook _ _ _ _ => true
  | .subscriber _ _ _ _ => false

/-- The named-event subscriber invocations among a list of invocations. -/
def subscriberCalls (calls : List Invocation) : List Invocation :=
  calls.filter Invocation.isSubscriber

/-- The generic onMessage hook invocations among a list of invocations. -/
def messageHookCalls (calls : List Invocation) : List Invocation :=
  calls.filter Invocation.isMessageHook

/-- The sends addressed to the client with the given id. -/
def sendsTo (acts : List SendAction) (i : Nat) : List SendAction :=
  acts.filter fun a => a.target == i

/-- Sample net socket for concrete instances. -/
def sampleNet : NetSocket :=
  { remoteAddress := "127.0.0.1", remotePort := 4000 }

/-- Sample open client websocket. -/
def sampleWS : ClientWS :=
  { id := 0, readyState := ReadyState.OPEN, _socket := sampleNet }

/-- Sample client websocket whose readyState is CLOSED. -/
def closedWS : ClientWS :=
  { id := 1, readyState := ReadyState.CLOSED, _socket := sampleNet }

/-- Sample upgrade request for the path "/chat" with an empty query. -/
def sampleReq : UpgradeReq :=
  { pathname := "/chat", query := [] }

/-- Second sample open client websocket, with a distinct id. -/
def wsB : ClientWS :=
  { id := 1, readyState := ReadyState.OPEN, _socket := sampleNet }

/-- Sample initialised server tracking the two open clients sampleWS and
wsB, used to exercise broadcast concretely. -/
def serverB : EventfulWebSocketServer :=
  { _socket := some { id := 0, connectionListenerCount := 1, clients := [sampleWS, wsB] } }

/-- The value of sampleWS after the connection callback has attached the
remote metadata and the request. -/
def sampleWSOpened : ClientWS :=
  { sampleWS with
    remote := some { address := "127.0.0.1", port := 4000, fullAddress := "127.0.0.1:4000" },
    request := some sampleReq }

/-! Helper lemmas shared by the claim theorems. -/

/-- parseEWSMessage reports failure on every input, for every behaviour of
the JSON.parse builtin: the return in the finally block supersedes the
return in the try block as well as any exception. -/
theorem parseEWSMessage_eq_fail (jsonParse : String → Except String JValue) (message : String) :
    parseEWSMessage jsonParse message = { ok := false, body := none } :=
  rfl

/-- handleMessage never performs a subscriber invocation, whatever the
server state, the message and the behaviour of JSON.parse: the dispatch
branch is guarded by the ok field of the parse result, which is false on
every input. -/
theorem subscriberCalls_handleMessage (jsonParse : String → Except String JValue)
    (self : EventfulWebSocketServer) (wsId : Nat) (message : String) (isBinary : Bool) :
    subscriberCalls
      (EventfulWebSocketServer.handleMessage jsonParse self wsId message isBinary) = [] := by
  cases hm : self._onMessageHandler <;>
    simp [EventfulWebSocketServer.handleMessage, hm, parseEWSMessage, jsTryFinallyReturn,
      subscriberCalls, Invocation.isSubscriber, List.filter]

/-- Filtering sends by target distributes over append. -/
theorem sendsTo_append (xs ys : List SendAction) (i : Nat) :
    sendsTo (xs ++ ys) i = sendsTo xs i ++ sendsTo ys i := by
  simp [sendsTo]

/-- emit addresses only the id of its websocket argument. -/
theorem sendsTo_emit_of_ne (self : EventfulWebSocketServer) (c : ClientWS)
    (event : String) (data : JValue) (i : Nat) (h : c.id ≠ i) :
    sendsTo (self.emit c event data) i = [] := by
  unfold EventfulWebSocketServer.emit
  split
  · have hb : (c.id == i) = false := beq_eq_false_iff_ne.mpr h
    simp [sendsTo, List.filter, hb]
  · rfl

/-- The broadcast loop sends nothing to an id that no client in the list
carries. -/
theorem sendsTo_broadcastClients_of_ne (self : EventfulWebSocketServer)
    (clients : List ClientWS) (event : String) (data : JValue)
    (rule : Option (ClientWS → Bool)) (i : Nat) (h : ∀ c ∈ clients, c.id ≠ i) :
    sendsTo (EventfulWebSocketServer.broadcastClients self clients event data rule) i = [] := by
  induction clients with
  | nil => rfl
  | cons c rest ih =>
      have hc : c.id ≠ i := h c (List.mem_cons_self c rest)
      have hrest : ∀ x ∈ rest, x.id ≠ i := fun x hx => h x (List.mem_cons_of_mem c hx)
      show sendsTo (_ ++ _) i = []
      rw [sendsTo_append, ih hrest]
      cases rule with
      | none => simp [sendsTo_emit_of_ne self c event data i hc]
      | some r =>
          by_cases hr : r c
          · simp [hr, sendsTo_emit_of_ne self c event data i hc]
          · simp [hr, sendsTo]

/-- Per-client sends of the broadcast loop: over clients with distinct
ids, an OPEN member receives exactly the one encoded envelope when the
rule admits it (or no rule is given) and nothing when the rule rejects
it. -/
theorem sendsTo_broadcastClients (self : EventfulWebSocketServer)
    (clients : List ClientWS) (event : String) (data : JValue)
    (rule : Option (ClientWS → Bool)) (ws : ClientWS)
    (hmem : ws ∈ clients) (hnodup : (clients.map ClientWS.id).Nodup)
    (hopen : ws.readyState = ReadyState.OPEN) :
    sendsTo (EventfulWebSocketServer.broadcastClients self clients event data rule) ws.id
      = if (match rule with | some r => r ws | none => true)
        then [{ target := ws.id, payload := buildEWSMessage event data }]
        else [] := by
  induction clients with
  | nil => cases hmem
  | cons c rest ih =>
      rw [List.map_cons, List.nodup_cons] at hnodup
      obtain ⟨hnotin, hnodup2⟩ := hnodup
      show sendsTo (_ ++ _) ws.id = _
      rw [sendsTo_append]
      rcases List.mem_cons.mp hmem with heq | hmem2
      · subst heq
        have htail : ∀ x ∈ rest, x.id ≠ ws.id := by
          intro x hx hxe
          exact hnotin (hxe ▸ List.mem_map_of_mem ClientWS.id hx)
        rw [sendsTo_broadcastClients_of_ne self rest event data rule ws.id htail]
        cases rule with
        | none => simp [EventfulWebSocketServer.emit, hopen, sendsTo, List.filter]
        | some r =>
            by_cases hr : r ws <;>
              simp [hr, EventfulWebSocketServer.emit, hopen, sendsTo, List.filter]
      · have hc : c.id ≠ ws.id := by
          intro hce
          exact hnotin (hce ▸ List.mem_map_of_mem ClientWS.id hmem2)
        rw [ih hmem2 hnodup2]
        cases rule with
        | none => simp [sendsTo_emit_of_ne self c event data ws.id hc]
        | some r =>
            by_cases hr : r c
            · simp [hr, sendsTo_emit_of_ne self c event data ws.id hc]
            · simp [hr, sendsTo]

/-! Claim theorems. -/

/-- C1: the round-trip law fails on every input.  For every behaviour of
the JSON.parse builtin, every event name and every data value, decoding
the wire message produced by buildEWSMessage reports failure and carries
no body, because the unconditional return in the finally block of
parseEWSMessage supersedes the ok:true return of the try block. -/
theorem decode_of_encode_always_fails (jsonParse : String → Except String JValue)
    (event : String) (data : JValue) :
    parseEWSMessage jsonParse (buildEWSMessage event data) = { ok := false, body := none }
    ∧ (parseEWSMessage jsonParse (buildEWSMessage event data)).ok ≠ true :=
  ⟨rfl, by simp [parseEWSMessage, jsTryFinallyReturn]⟩

/-- C2: with an authenticator installed that rejects every request, an
upgrade to the known path "/chat" still completes the handshake on the
underlying primitive (the one numbered 0, created by the guarded init)
instead of destroying the transport: the upgrade handler reads the
nonexistent property authenticator instead of the stored _authenticator,
so the rejecting authenticator is never consulted. -/
theorem auth_false_handshake_completes :
    (upgradeHandler
        [("/chat", EventfulWebSocketServer.new.useAuthenticator fun _ _ => false)]
        { pathname := "/chat", query := [] } 0).outcome
      = UpgradeOutcome.handshake 0
    ∧ UpgradeOutcome.handshake 0 ≠ UpgradeOutcome.destroyed :=
  ⟨rfl, by decide⟩

/-- C3 as stated is false at the concrete input of a fresh router: the
second call to init constructs a second WebSocket.Server instance (the
construction counter reaches 2, where a single call reaches 1) and the
router ends up holding the instance numbered 1, not the instance numbered
0 that the first call created, so the two-call state is not the one-call
state. -/
theorem init_twice_not_idempotent :
    ((EventfulWebSocketServer.new.init 0).1.init (EventfulWebSocketServer.new.init 0).2).2 = 2
    ∧ (EventfulWebSocketServer.new.init 0).2 = 1
    ∧ ((EventfulWebSocketServer.new.init 0).1.init
          (EventfulWebSocketServer.new.init 0).2).1._socket
        = some { id := 1, connectionListenerCount := 1, clients := [] }
    ∧ (EventfulWebSocketServer.new.init 0).1._socket
        = some { id := 0, connectionListenerCount := 1, clients := [] }
    ∧ (2 : Nat) ≠ 1 :=
  ⟨rfl, rfl, rfl, rfl, by decide⟩

/-- C3 amended: after two calls to init the router holds exactly one
underlying accepting primitive carrying exactly one registered
connection-accept callback, but that primitive is a second, fresh instance
which replaced the one the first call created: two instances have been
constructed in total. -/
theorem init_twice_single_socket (e : EventfulWebSocketServer) (c : Nat) :
    ((e.init c).1.init (e.init c).2).1._socket
      = some { id := c + 1, connectionListenerCount := 1, clients := [] }
    ∧ ((e.init c).1.init (e.init c).2).2 = c + 2
    ∧ (e.init c).1._socket = some { id := c, connectionListenerCount := 1, clients := [] } :=
  ⟨rfl, rfl, rfl⟩

/-- C4: subscribe(ping, 1) then subscribe(ping, 2) registers both handlers
in order under the event key, yet delivering a message invokes neither of
them, whatever JSON.parse returns for it, in particular when it returns
the well-formed ping envelope: parseEWSMessage reports ok on no input, so
the named-event dispatch loop of the message listener is dead code and the
listener performs no invocation at all on this server (which has no
generic hook installed). -/
theorem subscribed_handlers_never_invoked (jsonParse : String → Except String JValue)
    (message : String) (isBinary : Bool) :
    ((EventfulWebSocketServer.new.subscribe "ping" 1).subscribe "ping" 2)._events
      = [("ping", [1, 2])]
    ∧ EventfulWebSocketServer.handleMessage jsonParse
        ((EventfulWebSocketServer.new.subscribe "ping" 1).subscribe "ping" 2) 0 message isBinary
      = [] :=
  ⟨rfl, rfl⟩

/-- C5 as stated is false at the concrete input of a router with onOpen
handler 5, an accepted websocket and its upgrade request: the connection
callback performs exactly one onOpen call, and the argument list of that
call holds the websocket only, not the two-element list (connection,
request) the claim requires. -/
theorem onOpen_single_argument_cex :
    ((EventfulWebSocketServer.new.onOpen 5).connectionCallback sampleWS sampleReq).2
      = [{ handler := 5, args := [OpenArg.connection sampleWSOpened] }]
    ∧ [OpenArg.connection sampleWSOpened]
        ≠ [OpenArg.connection sampleWSOpened, OpenArg.request sampleReq] :=
  ⟨rfl, by decide⟩

/-- C5 amended: for every router with an onOpen handler set, the
connection callback invokes it exactly once, with the connection as its
only argument; the originating upgrade request is attached to the
connection as connection.request, and the remote metadata (address, port
and the formatted address:port string) as connection.remote, before the
hook is invoked. -/
theorem onOpen_invoked_with_connection (self : EventfulWebSocketServer) (ws : ClientWS)
    (req : UpgradeReq) (h : Handler) (hset : self._onOpenHandler = some h) :
    (self.connectionCallback ws req).2
      = [{ handler := h, args := [OpenArg.connection (self.connectionCallback ws req).1] }]
    ∧ (self.connectionCallback ws req).1.request = some req
    ∧ (self.connectionCallback ws req).1.remote
      = some { address := ws._socket.remoteAddress, port := ws._socket.remotePort,
               fullAddress := ws._socket.remoteAddress ++ ":"
                 ++ toString ws._socket.remotePort } := by
  refine ⟨?_, rfl, rfl⟩
  simp only [EventfulWebSocketServer.connectionCallback, hset]

/-- Witness for the amended C5 theorem at handler 7, the websocket wsB and
the request sampleReq. -/
theorem onOpen_invoked_with_connection_witness :
    ((EventfulWebSocketServer.new.onOpen 7)._onOpenHandler = some 7)
    ∧ ((EventfulWebSocketServer.new.onOpen 7).connectionCallback wsB sampleReq).2
      = [{ handler := 7, args := [OpenArg.connection
            ((EventfulWebSocketServer.new.onOpen 7).connectionCallback wsB sampleReq).1] }] :=
  ⟨rfl, (onOpen_invoked_with_connection (EventfulWebSocketServer.new.onOpen 7)
      wsB sampleReq 7 rfl).1⟩

/-- C6: for every inbound message and every behaviour of JSON.parse — in
particular for both non-decodable families the claim names, raw text that
JSON.parse rejects and valid structure whose object lacks the event field
— the message listener performs zero subscriber invocations, and when the
generic onMessage hook is set the listener performs exactly the one hook
invocation, carrying the websocket, the raw message and isBinary. -/
theorem malformed_message_hook_once (jsonParse : String → Except String JValue)
    (self : EventfulWebSocketServer) (wsId : Nat) (message : String) (isBinary : Bool) :
    subscriberCalls
        (EventfulWebSocketServer.handleMessage jsonParse self wsId message isBinary) = []
    ∧ ∀ h, self._onMessageHandler = some h →
        EventfulWebSocketServer.handleMessage jsonParse self wsId message isBinary
          = [Invocation.messageHook h wsId message isBinary] := by
  refine ⟨subscriberCalls_handleMessage jsonParse self wsId message isBinary, ?_⟩
  intro h hset
  simp [EventfulWebSocketServer.handleMessage, hset, parseEWSMessage, jsTryFinallyReturn]

/-- Witness for the C6 theorem, exercising both non-decodable families on
a server with onMessage hook 9: JSON.parse throwing a SyntaxError on the
raw text "oops", and JSON.parse accepting an object that carries no event
field; the hook fires exactly once either way and no subscriber runs. -/
theorem malformed_message_hook_once_witness :
    EventfulWebSocketServer.handleMessage
        (fun _ => Except.error "SyntaxError") (EventfulWebSocketServer.new.onMessage 9)
        3 "oops" false
      = [Invocation.messageHook 9 3 "oops" false]
    ∧ EventfulWebSocketServer.handleMessage
        (fun _ => Except.ok (JValue.obj [("data", JValue.null)]))
        (EventfulWebSocketServer.new.onMessage 9) 3 "\x7b\"data\":null\x7d" true
      = [Invocation.messageHook 9 3 "\x7b\"data\":null\x7d" true] :=
  ⟨(malformed_message_hook_once (fun _ => Except.error "SyntaxError")
      (EventfulWebSocketServer.new.onMessage 9) 3 "oops" false).2 9 rfl,
   (malformed_message_hook_once (fun _ => Except.ok (JValue.obj [("data", JValue.null)]))
      (EventfulWebSocketServer.new.onMessage 9) 3 "\x7b\"data\":null\x7d" true).2 9 rfl⟩

/-- C7: emit on a connection whose readyState is not OPEN performs no send
(the embedded method is total, so it returns normally without raising),
and emit on an OPEN connection performs exactly one send, carrying the
encoded envelope of the event and data. -/
theorem emit_state_check (self : EventfulWebSocketServer) (ws : ClientWS)
    (event : String) (data : JValue) :
    (ws.readyState ≠ ReadyState.OPEN → self.emit ws event data = [])
    ∧ (ws.readyState = ReadyState.OPEN →
        self.emit ws event data
          = [{ target := ws.id, payload := buildEWSMessage event data }]) := by
  constructor
  · intro h
    simp [EventfulWebSocketServer.emit, h]
  · intro h
    simp [EventfulWebSocketServer.emit, h]

/-- Witness for the C7 theorem: the CLOSED connection closedWS receives
nothing and the OPEN connection sampleWS receives the one envelope. -/
theorem emit_state_check_witness :
    closedWS.readyState ≠ ReadyState.OPEN
    ∧ EventfulWebSocketServer.new.emit closedWS "pong" JValue.null = []
    ∧ EventfulWebSocketServer.new.emit sampleWS "pong" JValue.null
      = [{ target := 0, payload := buildEWSMessage "pong" JValue.null }] :=
  ⟨by decide,
   (emit_state_check EventfulWebSocketServer.new closedWS "pong" JValue.null).1 (by decide),
   (emit_state_check EventfulWebSocketServer.new sampleWS "pong" JValue.null).2 rfl⟩

/-- C8: an upgrade whose pathname is not a key of the route table destroys
the transport and changes nothing: the route table is returned untouched
and the construction counter is unchanged, so no router was initialised
and, the outcome being destroyed rather than handshake, no connection
event fires and no accept callback runs. -/
theorem unknown_path_destroys (router : List (String × EventfulWebSocketServer))
    (req : UpgradeReq) (created : Nat) (hmiss : lookupRoute router req.pathname = none) :
    upgradeHandler router req created
      = { outcome := UpgradeOutcome.destroyed, router := router, created := created } := by
  unfold upgradeHandler
  rw [hmiss]

/-- Witness for the C8 theorem: a one-entry route table for "/chat" and a
request for the unknown path "/nope". -/
theorem unknown_path_destroys_witness :
    lookupRoute [("/chat", EventfulWebSocketServer.new)] "/nope" = none
    ∧ upgradeHandler [("/chat", EventfulWebSocketServer.new)]
        { pathname := "/nope", query := [] } 0
      = { outcome := UpgradeOutcome.destroyed,
          router := [("/chat", EventfulWebSocketServer.new)], created := 0 } :=
  ⟨rfl, unknown_path_destroys [("/chat", EventfulWebSocketServer.new)]
      { pathname := "/nope", query := [] } 0 rfl⟩

/-- C9: broadcast on an initialised router runs the loop over the tracked
client set; over clients with distinct ids, a tracked OPEN connection that
the predicate rejects receives no send, and a tracked OPEN connection that
the predicate admits (or any tracked OPEN connection when no predicate is
given) receives exactly one send, carrying the encoded envelope of the
event and data. -/
theorem broadcast_per_open_connection (self : EventfulWebSocketServer) (wss : WSServer)
    (event : String) (data : JValue) (rule : Option (ClientWS → Bool)) (ws : ClientWS)
    (hsock : self._socket = some wss)
    (hmem : ws ∈ wss.clients) (hnodup : (wss.clients.map ClientWS.id).Nodup)
    (hopen : ws.readyState = ReadyState.OPEN) :
    self.broadcast event data rule
      = Except.ok (EventfulWebSocketServer.broadcastClients self wss.clients event data rule)
    ∧ (∀ r, rule = some r → r ws = false →
        sendsTo (EventfulWebSocketServer.broadcastClients self wss.clients event data rule)
          ws.id = [])
    ∧ ((rule = none ∨ ∃ r, rule = some r ∧ r ws = true) →
        sendsTo (EventfulWebSocketServer.broadcastClients self wss.clients event data rule)
          ws.id
          = [{ target := ws.id, payload := buildEWSMessage event data }]) := by
  have hmain := sendsTo_broadcastClients self wss.clients event data rule ws hmem hnodup hopen
  refine ⟨by simp [EventfulWebSocketServer.broadcast, hsock], ?_, ?_⟩
  · intro r hr hfalse
    subst hr
    simpa [hfalse] using hmain
  · intro hpass
    rcases hpass with hnone | ⟨r, hr, htrue⟩
    · subst hnone
      simpa using hmain
    · subst hr
      simpa [htrue] using hmain

/-- Witness for the C9 theorem: the initialised server serverB tracking
the OPEN clients sampleWS (id 0) and wsB (id 1), with the predicate that
admits only id 0: sampleWS receives exactly the one envelope. -/
theorem broadcast_per_open_connection_witness :
    serverB._socket
      = some { id := 0, connectionListenerCount := 1, clients := [sampleWS, wsB] }
    ∧ sendsTo (EventfulWebSocketServer.broadcastClients serverB [sampleWS, wsB]
        "e" JValue.null (some fun c => c.id == 0)) 0
      = [{ target := 0, payload := buildEWSMessage "e" JValue.null }] :=
  ⟨rfl,
   (broadcast_per_open_connection serverB
      { id := 0, connectionListenerCount := 1, clients := [sampleWS, wsB] }
      "e" JValue.null (some fun c => c.id == 0) sampleWS
      rfl (List.mem_cons_self sampleWS [wsB]) (by decide) rfl).2.2
      (Or.inr ⟨fun c => c.id == 0, rfl, rfl⟩)⟩

/-- C10: isInitialized is exactly the existence of the underlying
accepting primitive: it is false on a freshly constructed router, true
after any call to init returns, equal to the primitive being non-null on
every state, and unchanged by useAuthenticator, onOpen, onClose, onError,
onMessage and subscribe. -/
theorem isInitialized_tracks_socket :
    (EventfulWebSocketServer.new.isInitialized = false)
    ∧ (∀ (e : EventfulWebSocketServer) (c : Nat), ((e.init c).1).isInitialized = true)
    ∧ (∀ e : EventfulWebSocketServer, e.isInitialized = true ↔ e._socket ≠ none)
    ∧ (∀ (e : EventfulWebSocketServer) (a : UpgradeReq → Query → Bool),
        (e.useAuthenticator a).isInitialized = e.isInitialized)
    ∧ (∀ (e : EventfulWebSocketServer) (h : Handler),
        (e.onOpen h).isInitialized = e.isInitialized)
    ∧ (∀ (e : EventfulWebSocketServer) (h : Handler),
        (e.onClose h).isInitialized = e.isInitialized)
    ∧ (∀ (e : EventfulWebSocketServer) (h : Handler),
        (e.onError h).isInitialized = e.isInitialized)
    ∧ (∀ (e : EventfulWebSocketServer) (h : Handler),
        (e.onMessage h).isInitialized = e.isInitialized)
    ∧ (∀ (e : EventfulWebSocketServer) (ev : String) (h : Handler),
        (e.subscribe ev h).isInitialized = e.isInitialized) := by
  refine ⟨rfl, fun e c => rfl, fun e => ?_, fun e a => rfl, fun e h => rfl, fun e h => rfl,
    fun e h => rfl, fun e h => rfl, fun e ev h => rfl⟩
  cases hs : e._socket <;> simp [EventfulWebSocketServer.isInitialized, hs]

end EWSS
